import Mathlib

/-!
Verification of the dcgm-rs telemetry core: a shallow embedding of the
session lifecycle and field-value decoding engine (src/dcgm_types.rs,
src/lib.rs, src/metrics.rs), with theorems settling the spec claims.

Modelling conventions:
* Rust i64 / i32 values are embedded as Lean Int; comparisons on in-range
  values coincide with machine comparisons.  Where the source performs an
  `as u64` / `as usize` cast, the two's-complement reinterpretation is made
  explicit as reduction modulo 2^64.
* Rust f64 is embedded as Rat.  Ordered comparison on non-NaN doubles is
  faithfully the rational order on the represented values; a NaN operand
  makes every comparison false, which coincides with the "otherwise" branch
  of the sentinel predicates, so nothing here depends on NaN.
* The C union in DcgmFieldValue is read by this crate only through its i64
  and dbl members, dispatched by field id.  The embedding carries both views
  as independent fields, a strict superset of the bit-reinterpretation
  behaviours of the real union.
* FFI calls into libdcgm are modelled by environments that record, for each
  entry point, whether symbol resolution succeeds and which status code /
  out-parameters the daemon returns; each embedded operation additionally
  returns the trace of daemon calls it performed.
-/

namespace DcgmRs

/-! ### Constants from src/dcgm_types.rs -/

def DCGM_FI_DEV_GPU_UTIL : Nat := 203
def DCGM_FI_DEV_FB_TOTAL : Nat := 250
def DCGM_FI_DEV_FB_FREE : Nat := 251
def DCGM_FI_DEV_FB_USED : Nat := 252
def DCGM_FI_DEV_POWER_USAGE : Nat := 155
def DCGM_FI_DEV_TOTAL_ENERGY_CONSUMPTION : Nat := 156
def DCGM_FI_DEV_GPU_TEMP : Nat := 150
def DCGM_FI_DEV_ENFORCED_POWER_LIMIT : Nat := 164
def DCGM_FI_DEV_GPU_MAX_OP_TEMP : Nat := 152
def DCGM_FI_DEV_POWER_VIOLATION : Nat := 240
def DCGM_FI_DEV_THERMAL_VIOLATION : Nat := 241
def DCGM_FI_DEV_CLOCKS_EVENT_REASONS : Nat := 112
def DCGM_FI_PROF_SM_ACTIVE : Nat := 1002
def DCGM_FI_DEV_NAME : Nat := 50
def DCGM_FI_DEV_SM_CLOCK : Nat := 100
def DCGM_FI_DEV_MEM_CLOCK : Nat := 101

def DCGM_INT64_BLANK : Int := 0x7ffffffffffffff0
def DCGM_FP64_BLANK : Rat := 140737488355328

def DCGM_CLOCKS_EVENT_REASON_GPU_IDLE : Nat := 0x0000000000000001
def DCGM_CLOCKS_EVENT_REASON_CLOCKS_SETTING : Nat := 0x0000000000000002
def DCGM_CLOCKS_EVENT_REASON_SW_POWER_CAP : Nat := 0x0000000000000004
def DCGM_CLOCKS_EVENT_REASON_HW_SLOWDOWN : Nat := 0x0000000000000008
def DCGM_CLOCKS_EVENT_REASON_SYNC_BOOST : Nat := 0x0000000000000010
def DCGM_CLOCKS_EVENT_REASON_SW_THERMAL : Nat := 0x0000000000000020
def DCGM_CLOCKS_EVENT_REASON_HW_THERMAL : Nat := 0x0000000000000040
def DCGM_CLOCKS_EVENT_REASON_HW_POWER_BRAKE : Nat := 0x0000000000000080
def DCGM_CLOCKS_EVENT_REASON_DISPLAY_CLOCKS : Nat := 0x0000000000000100

/-- Embedding of is_int64_blank: val >= DCGM_INT64_BLANK. -/
def is_int64_blank (val : Int) : Bool := decide (DCGM_INT64_BLANK ≤ val)

/-- Embedding of is_fp64_blank: val >= DCGM_FP64_BLANK (f64 order as Rat). -/
def is_fp64_blank (val : Rat) : Bool := decide (DCGM_FP64_BLANK ≤ val)

/-- Two's-complement reinterpretation performed by a Rust `as u64` (or an
i32 `as usize` on a 64-bit target): reduction modulo 2^64. -/
def intCastU64 (v : Int) : Nat := (v % (2 : Int) ^ 64).toNat

/-- Embedding of DcgmFieldValue.  The union value is carried as its two
views read by this crate (i64 member and dbl member), unconstrained. -/
structure FieldValue where
  version : Nat
  entity_group_id : Nat
  entity_id : Nat
  field_id : Nat
  field_type : Nat
  status : Int
  timestamp : Int
  valI64 : Int
  valDbl : Rat
  deriving DecidableEq

/-! ### src/metrics.rs : GpuMetrics and assembly -/

/-- Embedding of GpuMetrics. -/
structure GpuMetrics where
  device_id : Nat
  timestamp : Int
  power_usage : Option Rat
  energy_consumption : Option Int
  enforced_power_limit : Option Int
  power_violation_time : Option Int
  gpu_temp : Option Int
  max_gpu_temp : Option Int
  thermal_violation_time : Option Int
  fb_total : Option Int
  fb_free : Option Int
  fb_used : Option Int
  gpu_util : Option Int
  sm_clock : Option Int
  mem_clock : Option Int
  clock_throttle_reasons : Option Nat
  throttle_reasons : Option (List String)
  deriving DecidableEq

/-- Embedding of GpuMetrics::new. -/
def GpuMetrics.new (device_id : Nat) : GpuMetrics where
  device_id := device_id
  timestamp := 0
  power_usage := none
  energy_consumption := none
  enforced_power_limit := none
  power_violation_time := none
  gpu_temp := none
  max_gpu_temp := none
  thermal_violation_time := none
  fb_total := none
  fb_free := none
  fb_used := none
  gpu_util := none
  sm_clock := none
  mem_clock := none
  clock_throttle_reasons := none
  throttle_reasons := none

/-- Embedding of GpuMetrics::decode_throttle_reasons.  The source tests
seven of the nine reason constants; SYNC_BOOST and DISPLAY_CLOCKS are not
tested.  Vec::push appends at the end, mirrored by list append. -/
def GpuMetrics.decode_throttle_reasons (m : GpuMetrics) : GpuMetrics :=
  match m.clock_throttle_reasons with
  | some reasons =>
      let decoded : List String := []
      let decoded := if reasons &&& DCGM_CLOCKS_EVENT_REASON_GPU_IDLE ≠ 0
        then decoded ++ ["GPU_IDLE"] else decoded
      let decoded := if reasons &&& DCGM_CLOCKS_EVENT_REASON_CLOCKS_SETTING ≠ 0
        then decoded ++ ["CLOCKS_SETTING"] else decoded
      let decoded := if reasons &&& DCGM_CLOCKS_EVENT_REASON_SW_POWER_CAP ≠ 0
        then decoded ++ ["SW_POWER_CAP"] else decoded
      let decoded := if reasons &&& DCGM_CLOCKS_EVENT_REASON_HW_SLOWDOWN ≠ 0
        then decoded ++ ["HW_SLOWDOWN"] else decoded
      let decoded := if reasons &&& DCGM_CLOCKS_EVENT_REASON_SW_THERMAL ≠ 0
        then decoded ++ ["SW_THERMAL"] else decoded
      let decoded := if reasons &&& DCGM_CLOCKS_EVENT_REASON_HW_THERMAL ≠ 0
        then decoded ++ ["HW_THERMAL"] else decoded
      let decoded := if reasons &&& DCGM_CLOCKS_EVENT_REASON_HW_POWER_BRAKE ≠ 0
        then decoded ++ ["HW_POWER_BRAKE"] else decoded
      { m with throttle_reasons := some decoded }
  | none => m

/-- Embedding of DcgmError (src/lib.rs).  Payloads not needed by any claim
are dropped from LibraryError. -/
inductive DcgmError where
  | LibraryError
  | ApiError (code : Int) (msg : String)
  | InitializationError
  | InvalidHandle
  | ConnectionFailed
  | FieldValueError (msg : String)
  | RequiresRoot (msg : String)
  deriving DecidableEq

/-- One step of the field-value loop of get_basic_metrics: the match on
field_value.field_id that populates one optional of the snapshot.  Unknown
ids fall to the wildcard arm and leave the snapshot unchanged. -/
def processFieldValue (metrics : GpuMetrics) (fv : FieldValue) : GpuMetrics :=
  if fv.field_id = DCGM_FI_DEV_POWER_USAGE then
    let value := fv.valDbl
    if ¬ is_fp64_blank value then { metrics with power_usage := some value } else metrics
  else if fv.field_id = DCGM_FI_DEV_TOTAL_ENERGY_CONSUMPTION then
    let value := fv.valI64
    if ¬ is_int64_blank value then { metrics with energy_consumption := some value } else metrics
  else if fv.field_id = DCGM_FI_DEV_GPU_TEMP then
    let value := fv.valI64
    if ¬ is_int64_blank value then { metrics with gpu_temp := some value } else metrics
  else if fv.field_id = DCGM_FI_DEV_GPU_MAX_OP_TEMP then
    let value := fv.valI64
    if ¬ is_int64_blank value then { metrics with max_gpu_temp := some value } else metrics
  else if fv.field_id = DCGM_FI_DEV_ENFORCED_POWER_LIMIT then
    let value := fv.valI64
    if ¬ is_int64_blank value then { metrics with enforced_power_limit := some value } else metrics
  else if fv.field_id = DCGM_FI_DEV_FB_TOTAL then
    let value := fv.valI64
    if ¬ is_int64_blank value then { metrics with fb_total := some value } else metrics
  else if fv.field_id = DCGM_FI_DEV_FB_FREE then
    let value := fv.valI64
    if ¬ is_int64_blank value then { metrics with fb_free := some value } else metrics
  else if fv.field_id = DCGM_FI_DEV_FB_USED then
    let value := fv.valI64
    if ¬ is_int64_blank value then { metrics with fb_used := some value } else metrics
  else if fv.field_id = DCGM_FI_DEV_GPU_UTIL then
    let value := fv.valI64
    if ¬ is_int64_blank value then { metrics with gpu_util := some value } else metrics
  else if fv.field_id = DCGM_FI_DEV_SM_CLOCK then
    let value := fv.valI64
    if ¬ is_int64_blank value then { metrics with sm_clock := some value } else metrics
  else if fv.field_id = DCGM_FI_DEV_MEM_CLOCK then
    let value := fv.valI64
    if ¬ is_int64_blank value then { metrics with mem_clock := some value } else metrics
  else if fv.field_id = DCGM_FI_DEV_POWER_VIOLATION then
    let value := fv.valI64
    if ¬ is_int64_blank value then { metrics with power_violation_time := some value } else metrics
  else if fv.field_id = DCGM_FI_DEV_THERMAL_VIOLATION then
    let value := fv.valI64
    if ¬ is_int64_blank value then { metrics with thermal_violation_time := some value } else metrics
  else if fv.field_id = DCGM_FI_DEV_CLOCKS_EVENT_REASONS then
    let value := fv.valI64
    if ¬ is_int64_blank value then
      { metrics with clock_throttle_reasons := some (intCastU64 value) } else metrics
  else metrics

/-- The timestamp accumulation of get_basic_metrics: latest_timestamp
starts at 0 and is raised to each record timestamp that exceeds it. -/
def latestTimestamp (batch : List FieldValue) : Int :=
  batch.foldl (fun latest fv => if fv.timestamp > latest then fv.timestamp else latest) 0

/-- Embedding of DcgmHandle::get_basic_metrics given the batch of field
values returned by the FFI fetch (update_all_fields and
get_device_field_values are foreign calls whose failures propagate before
this logic runs; the fetch itself is not part of src/). -/
def get_basic_metrics (device_id : Nat) (batch : List FieldValue) :
    Except DcgmError GpuMetrics :=
  if batch.isEmpty then
    .error (.FieldValueError "No metrics data returned")
  else
    let metrics := batch.foldl processFieldValue (GpuMetrics.new device_id)
    let metrics := { metrics with timestamp := latestTimestamp batch }
    .ok metrics.decode_throttle_reasons

/-- The field ids handled by named arms of the get_basic_metrics match. -/
def knownFieldIds : List Nat :=
  [DCGM_FI_DEV_POWER_USAGE, DCGM_FI_DEV_TOTAL_ENERGY_CONSUMPTION,
   DCGM_FI_DEV_GPU_TEMP, DCGM_FI_DEV_GPU_MAX_OP_TEMP,
   DCGM_FI_DEV_ENFORCED_POWER_LIMIT, DCGM_FI_DEV_FB_TOTAL,
   DCGM_FI_DEV_FB_FREE, DCGM_FI_DEV_FB_USED, DCGM_FI_DEV_GPU_UTIL,
   DCGM_FI_DEV_SM_CLOCK, DCGM_FI_DEV_MEM_CLOCK, DCGM_FI_DEV_POWER_VIOLATION,
   DCGM_FI_DEV_THERMAL_VIOLATION, DCGM_FI_DEV_CLOCKS_EVENT_REASONS]

/-! ### src/lib.rs : session handle, enrollment, device enumeration -/

/-- The mutable state of DcgmHandle (the Library binding itself carries no
state the claims touch). -/
structure DcgmHandleState where
  handle : Nat
  power_watched : Bool
  prof_watched : Bool
  power_group_id : Nat
  prof_group_id : Nat
  deriving DecidableEq

/-- Daemon entry points an enrollment call may invoke. -/
inductive DaemonCall where
  | fieldGroupCreate
  | watchFields
  deriving DecidableEq

/-- Environment for enable_profiling_metrics: whether each symbol resolves,
and the status / out-parameter the daemon returns for each call. -/
structure DaemonEnv where
  fieldGroupCreateSymOk : Bool
  fieldGroupCreateStatus : Int
  fieldGroupCreateId : Nat
  watchFieldsSymOk : Bool
  watchFieldsStatus : Int
  deriving DecidableEq

instance {ε α : Type} [DecidableEq ε] [DecidableEq α] :
    DecidableEq (Except ε α) := fun a b =>
  match a, b with
  | .error e, .error f =>
      if h : e = f then isTrue (by rw [h]) else isFalse (by simp [h])
  | .ok x, .ok y =>
      if h : x = y then isTrue (by rw [h]) else isFalse (by simp [h])
  | .error _, .ok _ => isFalse (by simp)
  | .ok _, .error _ => isFalse (by simp)

/-- Outcome of an enrollment call: the Result value, the handle state after
the call, and the trace of daemon operations invoked. -/
structure CallResult where
  result : Except DcgmError Unit
  state : DcgmHandleState
  calls : List DaemonCall
  deriving DecidableEq

/-- Embedding of DcgmHandle::enable_power_metrics: early return when
already watched, otherwise only the flag is flipped; no daemon call on
either path. -/
def enable_power_metrics (s : DcgmHandleState) : CallResult :=
  if s.power_watched then
    { result := .ok (), state := s, calls := [] }
  else
    { result := .ok (), state := { s with power_watched := true }, calls := [] }

/-- Embedding of DcgmHandle::enable_profiling_metrics.  Mirrors the source
order: early return when already watched; resolve dcgmFieldGroupCreate;
call it; fail with ApiError unless the status is 0 or -26 (duplicate key);
store the group id; resolve dcgmWatchFields; call it; map -29 to
RequiresRoot and any other non-zero status to ApiError; finally set the
watched flag. -/
def enable_profiling_metrics (env : DaemonEnv) (s : DcgmHandleState) : CallResult :=
  if s.prof_watched then
    { result := .ok (), state := s, calls := [] }
  else if ¬ env.fieldGroupCreateSymOk then
    { result := .error .LibraryError, state := s, calls := [] }
  else
    let result := env.fieldGroupCreateStatus
    let field_group_id := env.fieldGroupCreateId
    if result ≠ 0 ∧ result ≠ -26 then
      { result := .error (.ApiError result "dcgmFieldGroupCreate failed for profiling metrics")
        state := s, calls := [.fieldGroupCreate] }
    else
      let s := { s with prof_group_id := field_group_id }
      if ¬ env.watchFieldsSymOk then
        { result := .error .LibraryError, state := s, calls := [.fieldGroupCreate] }
      else
        let wres := env.watchFieldsStatus
        if wres ≠ 0 then
          if wres = -29 then
            { result := .error (.RequiresRoot
                "Profiling metrics require root access. Try running with sudo")
              state := s, calls := [.fieldGroupCreate, .watchFields] }
          else
            { result := .error (.ApiError wres "dcgmWatchFields failed for profiling metrics")
              state := s, calls := [.fieldGroupCreate, .watchFields] }
        else
          { result := .ok (), state := { s with prof_watched := true }
            calls := [.fieldGroupCreate, .watchFields] }

/-- Environment for DcgmHandle::new: the libdcgm load, symbol resolutions,
and the statuses returned by dcgmInit, dcgmStartEmbedded (with its out
handle) and dcgmUpdateAllFields. -/
structure NewEnv where
  libOk : Bool
  initSymOk : Bool
  initStatus : Int
  startSymOk : Bool
  startStatus : Int
  startHandle : Nat
  updateSymOk : Bool
  updateStatus : Int
  deriving DecidableEq

/-- Embedding of DcgmHandle::new.  The second component collects warning
lines written to stderr (the non-fatal report of a failed initial
refresh). -/
def DcgmHandle.new (env : NewEnv) :
    Except DcgmError DcgmHandleState × List String :=
  if ¬ env.libOk then (.error .LibraryError, [])
  else if ¬ env.initSymOk then (.error .LibraryError, [])
  else if env.initStatus ≠ 0 then
    (.error (.ApiError env.initStatus "dcgmInit failed"), [])
  else if ¬ env.startSymOk then (.error .LibraryError, [])
  else if env.startStatus ≠ 0 then
    (.error (.ApiError env.startStatus "dcgmStartEmbedded failed"), [])
  else if ¬ env.updateSymOk then (.error .LibraryError, [])
  else
    let warnings :=
      if env.updateStatus ≠ 0 then
        ["Warning: dcgmUpdateAllFields failed with code " ++ toString env.updateStatus]
      else []
    (.ok { handle := env.startHandle, power_watched := false, prof_watched := false,
           power_group_id := 0, prof_group_id := 0 }, warnings)

/-- Embedding of DcgmHandle::get_device_ids given the status, the 32-entry
buffer contents and the out count reported by dcgmGetAllDevices.  The
slicing gpu_ids[0..count as usize] panics when out of bounds; the panic is
modelled as none. -/
def get_device_ids (status : Int) (gpu_ids : List Nat) (count : Int) :
    Option (Except DcgmError (List Nat)) :=
  if status ≠ 0 then
    some (.error (.ApiError status "dcgmGetAllDevices failed"))
  else if intCastU64 count ≤ gpu_ids.length then
    some (.ok (gpu_ids.take (intCastU64 count)))
  else
    none

/-- The seven (bit, name) pairs tested by decode_throttle_reasons, in the
source enumeration order; used to state the decode characterisation. -/
def throttleReasonTable : List (Nat × String) :=
  [(DCGM_CLOCKS_EVENT_REASON_GPU_IDLE, "GPU_IDLE"),
   (DCGM_CLOCKS_EVENT_REASON_CLOCKS_SETTING, "CLOCKS_SETTING"),
   (DCGM_CLOCKS_EVENT_REASON_SW_POWER_CAP, "SW_POWER_CAP"),
   (DCGM_CLOCKS_EVENT_REASON_HW_SLOWDOWN, "HW_SLOWDOWN"),
   (DCGM_CLOCKS_EVENT_REASON_SW_THERMAL, "SW_THERMAL"),
   (DCGM_CLOCKS_EVENT_REASON_HW_THERMAL, "HW_THERMAL"),
   (DCGM_CLOCKS_EVENT_REASON_HW_POWER_BRAKE, "HW_POWER_BRAKE")]

/-- A concrete record with an unknown field id and a negative timestamp,
used as test input. -/
def cexRecord : FieldValue where
  version := 2
  entity_group_id := 0
  entity_id := 0
  field_id := 0
  field_type := 0
  status := 0
  timestamp := -1
  valI64 := 0
  valDbl := 0

/-- A concrete record with an unknown field id and timestamp 7. -/
def unknownRecord : FieldValue where
  version := 2
  entity_group_id := 0
  entity_id := 0
  field_id := 9999
  field_type := 0
  status := 0
  timestamp := 7
  valI64 := 3
  valDbl := 3

/-- A concrete fresh handle state (all flags clear), as produced by
DcgmHandle::new. -/
def freshState : DcgmHandleState where
  handle := 1
  power_watched := false
  prof_watched := false
  power_group_id := 0
  prof_group_id := 0

/-- A daemon environment in which both enrollment symbols resolve and both
calls succeed. -/
def envOk : DaemonEnv where
  fieldGroupCreateSymOk := true
  fieldGroupCreateStatus := 0
  fieldGroupCreateId := 5
  watchFieldsSymOk := true
  watchFieldsStatus := 0

/-- A daemon environment in which the watch-fields call reports
DCGM_ST_REQUIRES_ROOT (-29). -/
def envRoot : DaemonEnv where
  fieldGroupCreateSymOk := true
  fieldGroupCreateStatus := 0
  fieldGroupCreateId := 5
  watchFieldsSymOk := true
  watchFieldsStatus := -29

/-- A daemon environment in which field-group creation fails with an
unclassified status. -/
def envCreateFail : DaemonEnv where
  fieldGroupCreateSymOk := true
  fieldGroupCreateStatus := 7
  fieldGroupCreateId := 5
  watchFieldsSymOk := true
  watchFieldsStatus := 0

/-! ## Theorems -/

/-- C1: for every signed 64-bit integer v, is_int64_blank v is true iff
v >= DCGM_INT64_BLANK (hence false exactly when v < DCGM_INT64_BLANK), and
for every double w, is_fp64_blank w is true iff w >= DCGM_FP64_BLANK
(140737488355328.0) and false otherwise. -/
theorem blank_sentinel_spec (v : Int) (w : Rat) :
    (is_int64_blank v = true ↔ DCGM_INT64_BLANK ≤ v)
    ∧ (is_int64_blank v = false ↔ v < DCGM_INT64_BLANK)
    ∧ (is_fp64_blank w = true ↔ DCGM_FP64_BLANK ≤ w)
    ∧ (is_fp64_blank w = false ↔ w < DCGM_FP64_BLANK) := by
  simp [is_int64_blank, is_fp64_blank, not_le]

/-- C9: enable_power_metrics always returns success, sets the power watched
flag, performs no daemon call, and leaves every other field of the handle
unchanged (the state after the call is exactly the input state with
power_watched set). -/
theorem enable_power_frame (s : DcgmHandleState) :
    enable_power_metrics s =
      { result := .ok (), state := { s with power_watched := true }, calls := [] } := by
  cases s with
  | mk h pw fw pg fg => by_cases hp : pw <;> simp [enable_power_metrics, hp]

/-- A conditional push at the end of an accumulator is an append of a
conditional singleton. -/
theorem cond_append (c : Prop) [Decidable c] (d : List String) (x : String) :
    (if c then d ++ [x] else d) = d ++ (if c then [x] else []) := by
  split_ifs <;> simp

/-- Unfolding map-of-filter one table entry at a time. -/
theorem filter_map_snd_cons (p : Nat × String → Bool) (x : Nat × String)
    (l : List (Nat × String)) :
    ((x :: l).filter p).map Prod.snd
      = (if p x then [x.2] else []) ++ (l.filter p).map Prod.snd := by
  by_cases h : p x <;> simp [List.filter_cons, h]

/-- Characterisation of decode_throttle_reasons: when a mask is present the
decoded list is exactly the names of the seven tested causes whose bit is
set, in the fixed source order. -/
theorem decode_eq_filter (m : GpuMetrics) (r : Nat)
    (h : m.clock_throttle_reasons = some r) :
    (m.decode_throttle_reasons).throttle_reasons =
      some ((throttleReasonTable.filter fun p => decide (r &&& p.1 ≠ 0)).map
        Prod.snd) := by
  simp only [GpuMetrics.decode_throttle_reasons, h, throttleReasonTable]
  rw [cond_append, cond_append, cond_append, cond_append, cond_append,
    cond_append, cond_append]
  rw [filter_map_snd_cons, filter_map_snd_cons, filter_map_snd_cons,
    filter_map_snd_cons, filter_map_snd_cons, filter_map_snd_cons,
    filter_map_snd_cons]
  simp [List.append_assoc]

/-- C2 (amended): decoding a mask produces exactly the names of the seven
causes the decoder tests (idle, clock-setting override, software power cap,
hardware slowdown, software thermal, hardware thermal, hardware power
brake) whose bit is set, in that fixed deterministic order; the sync-boost
and display-clock bits are ignored (their names never appear), and decoding
0 yields an empty cause list. -/
theorem throttle_decode_amended (m : GpuMetrics) (r : Nat)
    (h : m.clock_throttle_reasons = some r) :
    (m.decode_throttle_reasons.throttle_reasons
      = some ((throttleReasonTable.filter fun p => decide (r &&& p.1 ≠ 0)).map
          Prod.snd))
    ∧ "SYNC_BOOST" ∉ m.decode_throttle_reasons.throttle_reasons.getD []
    ∧ "DISPLAY_CLOCKS" ∉ m.decode_throttle_reasons.throttle_reasons.getD []
    ∧ (r = 0 → m.decode_throttle_reasons.throttle_reasons = some []) := by
  have hf := decode_eq_filter m r h
  refine ⟨hf, ?_, ?_, ?_⟩
  · rw [hf]
    intro hmem
    simp only [Option.getD_some, List.mem_map, List.mem_filter,
      throttleReasonTable] at hmem
    obtain ⟨p, ⟨hp, _⟩, hsnd⟩ := hmem
    simp only [List.mem_cons, List.not_mem_nil] at hp
    rcases hp with h1 | h1 | h1 | h1 | h1 | h1 | h1 | h1 <;> simp_all
  · rw [hf]
    intro hmem
    simp only [Option.getD_some, List.mem_map, List.mem_filter,
      throttleReasonTable] at hmem
    obtain ⟨p, ⟨hp, _⟩, hsnd⟩ := hmem
    simp only [List.mem_cons, List.not_mem_nil] at hp
    rcases hp with h1 | h1 | h1 | h1 | h1 | h1 | h1 | h1 <;> simp_all
  · intro hr
    subst hr
    rw [hf]
    simp [throttleReasonTable, DCGM_CLOCKS_EVENT_REASON_GPU_IDLE,
      DCGM_CLOCKS_EVENT_REASON_CLOCKS_SETTING,
      DCGM_CLOCKS_EVENT_REASON_SW_POWER_CAP,
      DCGM_CLOCKS_EVENT_REASON_HW_SLOWDOWN,
      DCGM_CLOCKS_EVENT_REASON_SW_THERMAL,
      DCGM_CLOCKS_EVENT_REASON_HW_THERMAL,
      DCGM_CLOCKS_EVENT_REASON_HW_POWER_BRAKE]

/-- C2 (witness): the amended decode characterisation instantiated at a
snapshot carrying the mask 5 (idle plus software power cap). -/
theorem throttle_decode_amended_witness :
    ({ GpuMetrics.new 0 with
        clock_throttle_reasons := some 5 } : GpuMetrics).clock_throttle_reasons
        = some 5
    ∧ (({ GpuMetrics.new 0 with
          clock_throttle_reasons := some 5 } :
            GpuMetrics).decode_throttle_reasons.throttle_reasons
        = some ((throttleReasonTable.filter fun p =>
            decide (5 &&& p.1 ≠ 0)).map Prod.snd))
      ∧ "SYNC_BOOST" ∉ ({ GpuMetrics.new 0 with
          clock_throttle_reasons := some 5 } :
            GpuMetrics).decode_throttle_reasons.throttle_reasons.getD []
      ∧ "DISPLAY_CLOCKS" ∉ ({ GpuMetrics.new 0 with
          clock_throttle_reasons := some 5 } :
            GpuMetrics).decode_throttle_reasons.throttle_reasons.getD []
      ∧ ((5 : Nat) = 0 → ({ GpuMetrics.new 0 with
          clock_throttle_reasons := some 5 } :
            GpuMetrics).decode_throttle_reasons.throttle_reasons = some []) :=
  ⟨rfl, throttle_decode_amended _ 5 rfl⟩

/-- C2 (counterexample): the claim lists nine decoded causes, but a mask
consisting of exactly the sync-boost bit (bit 4, 0x10) decodes to the empty
cause list even though that bit is set, so the name bound to bit 4 is
missing from the output. -/
theorem throttle_decode_cex :
    ({ GpuMetrics.new 0 with
        clock_throttle_reasons :=
          some DCGM_CLOCKS_EVENT_REASON_SYNC_BOOST } :
        GpuMetrics).decode_throttle_reasons.throttle_reasons = some []
    ∧ DCGM_CLOCKS_EVENT_REASON_SYNC_BOOST &&&
        DCGM_CLOCKS_EVENT_REASON_SYNC_BOOST ≠ 0 := by
  constructor
  · rfl
  · decide

/-- A successful enable_profiling_metrics call leaves the profiling watched
flag set. -/
theorem enable_profiling_ok_flag (env : DaemonEnv) (s : DcgmHandleState)
    (h : (enable_profiling_metrics env s).result = .ok ()) :
    (enable_profiling_metrics env s).state.prof_watched = true := by
  simp only [enable_profiling_metrics] at h ⊢
  split_ifs at h ⊢ <;> simp_all

/-- C3: for every session state and either watch category (power or
profiling), a second enable call after a successful first call is a no-op
returning success: the state after the second call equals the state after
the first call and the second call performs no daemon operation (for any
daemon environment the second call might face). -/
theorem enable_twice_noop (env env2 : DaemonEnv) (s : DcgmHandleState)
    (hprof : (enable_profiling_metrics env s).result = .ok ()) :
    (enable_power_metrics (enable_power_metrics s).state =
      { result := .ok (), state := (enable_power_metrics s).state, calls := [] })
    ∧ (enable_profiling_metrics env2 (enable_profiling_metrics env s).state =
      { result := .ok (), state := (enable_profiling_metrics env s).state,
        calls := [] }) := by
  constructor
  · have h1 : (enable_power_metrics s).state.power_watched = true := by
      by_cases h : s.power_watched <;> simp [enable_power_metrics, h]
    generalize hgen : (enable_power_metrics s).state = s1 at h1 ⊢
    simp [enable_power_metrics, h1]
  · have h2 := enable_profiling_ok_flag env s hprof
    generalize hgen : (enable_profiling_metrics env s).state = s1 at h2 ⊢
    simp [enable_profiling_metrics, h2]

/-- C3 (witness): second enrollment is a no-op, instantiated at a fresh
state with a daemon environment in which first enrollment succeeds. -/
theorem enable_twice_noop_witness :
    (enable_profiling_metrics envOk freshState).result = .ok ()
    ∧ ((enable_power_metrics (enable_power_metrics freshState).state =
        { result := .ok (), state := (enable_power_metrics freshState).state,
          calls := [] })
      ∧ (enable_profiling_metrics envOk
            (enable_profiling_metrics envOk freshState).state =
        { result := .ok (),
          state := (enable_profiling_metrics envOk freshState).state,
          calls := [] })) :=
  ⟨by decide, enable_twice_noop envOk envOk freshState (by decide)⟩

/-- C4: when the watch-fields call during profiling enrollment reports the
requires-elevated-access status (-29, DCGM_ST_REQUIRES_ROOT), the call
returns the distinct RequiresRoot error carrying a message and the
profiling category remains unwatched. -/
theorem profiling_requires_root (env : DaemonEnv) (s : DcgmHandleState)
    (h0 : s.prof_watched = false)
    (h1 : env.fieldGroupCreateSymOk = true)
    (h2 : env.fieldGroupCreateStatus = 0 ∨ env.fieldGroupCreateStatus = -26)
    (h3 : env.watchFieldsSymOk = true)
    (h4 : env.watchFieldsStatus = -29) :
    (enable_profiling_metrics env s).result =
      .error (.RequiresRoot
        "Profiling metrics require root access. Try running with sudo")
    ∧ (enable_profiling_metrics env s).state.prof_watched = false := by
  rcases h2 with h2 | h2 <;>
    simp [enable_profiling_metrics, h0, h1, h2, h3, h4]

/-- C4 (witness): the requires-root path instantiated at a fresh state and
the environment whose watch call reports -29. -/
theorem profiling_requires_root_witness :
    freshState.prof_watched = false
    ∧ envRoot.fieldGroupCreateSymOk = true
    ∧ (envRoot.fieldGroupCreateStatus = 0 ∨ envRoot.fieldGroupCreateStatus = -26)
    ∧ envRoot.watchFieldsSymOk = true
    ∧ envRoot.watchFieldsStatus = -29
    ∧ ((enable_profiling_metrics envRoot freshState).result =
        .error (.RequiresRoot
          "Profiling metrics require root access. Try running with sudo")
      ∧ (enable_profiling_metrics envRoot freshState).state.prof_watched
          = false) :=
  ⟨rfl, rfl, Or.inl rfl, rfl, rfl,
    profiling_requires_root envRoot freshState rfl rfl (Or.inl rfl) rfl rfl⟩

/-- C8: during profiling enrollment the field-group-create status is
tolerated exactly when it is 0 or -26 (DCGM_ST_DUPLICATE_KEY): enrollment
proceeds to the watch-fields step iff the create status is one of those
two, and any other non-zero create status yields an ApiError carrying that
status code. -/
theorem create_duplicate_key_tolerated (env : DaemonEnv) (s : DcgmHandleState)
    (h0 : s.prof_watched = false)
    (h1 : env.fieldGroupCreateSymOk = true)
    (h3 : env.watchFieldsSymOk = true) :
    (DaemonCall.watchFields ∈ (enable_profiling_metrics env s).calls ↔
      env.fieldGroupCreateStatus = 0 ∨ env.fieldGroupCreateStatus = -26)
    ∧ (env.fieldGroupCreateStatus ≠ 0 → env.fieldGroupCreateStatus ≠ -26 →
        (enable_profiling_metrics env s).result =
          .error (.ApiError env.fieldGroupCreateStatus
            "dcgmFieldGroupCreate failed for profiling metrics")) := by
  by_cases hc : env.fieldGroupCreateStatus ≠ 0 ∧ env.fieldGroupCreateStatus ≠ -26
  · refine ⟨?_, fun _ _ => by simp [enable_profiling_metrics, h0, h1, hc]⟩
    simp [enable_profiling_metrics, h0, h1, hc]
  · rw [not_and_or, not_not, not_not] at hc
    constructor
    · simp only [enable_profiling_metrics, h0, h1, h3]
      rcases hc with hc | hc <;>
        · simp only [hc]
          split_ifs <;> simp_all
    · intro hz hd
      rcases hc with hc | hc
      · exact absurd hc hz
      · exact absurd hc hd

/-- C8 (witness): an unclassified create status (7) does not reach the
watch step and surfaces as ApiError 7. -/
theorem create_duplicate_key_tolerated_witness :
    freshState.prof_watched = false
    ∧ envCreateFail.fieldGroupCreateSymOk = true
    ∧ envCreateFail.watchFieldsSymOk = true
    ∧ ((DaemonCall.watchFields ∈
          (enable_profiling_metrics envCreateFail freshState).calls ↔
        envCreateFail.fieldGroupCreateStatus = 0 ∨
          envCreateFail.fieldGroupCreateStatus = -26)
      ∧ (envCreateFail.fieldGroupCreateStatus ≠ 0 →
          envCreateFail.fieldGroupCreateStatus ≠ -26 →
          (enable_profiling_metrics envCreateFail freshState).result =
            .error (.ApiError envCreateFail.fieldGroupCreateStatus
              "dcgmFieldGroupCreate failed for profiling metrics"))) :=
  ⟨rfl, rfl, rfl,
    create_duplicate_key_tolerated envCreateFail freshState rfl rfl rfl⟩

/-- C5 (amended): when dcgmStartEmbedded returns a non-zero status,
DcgmHandle::new fails with ApiError carrying that status and the message
naming dcgmStartEmbedded (not with the InitializationError variant, which
is never constructed); a failure of the initial dcgmUpdateAllFields refresh
on this path is non-fatal: a warning is reported and the constructor still
returns a successful handle with all watch state clear. -/
theorem new_start_failure_amended (env : NewEnv)
    (hlib : env.libOk = true) (hinitsym : env.initSymOk = true)
    (hinit : env.initStatus = 0) (hstartsym : env.startSymOk = true) :
    (env.startStatus ≠ 0 →
      DcgmHandle.new env =
        (.error (.ApiError env.startStatus "dcgmStartEmbedded failed"), []))
    ∧ (env.startStatus = 0 → env.updateSymOk = true → env.updateStatus ≠ 0 →
        DcgmHandle.new env =
          (.ok { handle := env.startHandle, power_watched := false,
                 prof_watched := false, power_group_id := 0,
                 prof_group_id := 0 },
           ["Warning: dcgmUpdateAllFields failed with code "
             ++ toString env.updateStatus])) := by
  constructor
  · intro hs
    simp [DcgmHandle.new, hlib, hinitsym, hinit, hstartsym, hs]
  · intro hs hu hup
    simp [DcgmHandle.new, hlib, hinitsym, hinit, hstartsym, hs, hu, hup]

/-- C5 (witness): the amended constructor behaviour instantiated at an
environment whose start call fails with status 1. -/
theorem new_start_failure_amended_witness :
    ({ libOk := true, initSymOk := true, initStatus := 0, startSymOk := true,
       startStatus := 1, startHandle := 0, updateSymOk := true,
       updateStatus := 0 } : NewEnv).libOk = true
    ∧ (((1 : Int) ≠ 0 →
        DcgmHandle.new
          { libOk := true, initSymOk := true, initStatus := 0,
            startSymOk := true, startStatus := 1, startHandle := 0,
            updateSymOk := true, updateStatus := 0 } =
          (.error (.ApiError 1 "dcgmStartEmbedded failed"), []))
      ∧ ((1 : Int) = 0 → true = true → (0 : Int) ≠ 0 →
        DcgmHandle.new
          { libOk := true, initSymOk := true, initStatus := 0,
            startSymOk := true, startStatus := 1, startHandle := 0,
            updateSymOk := true, updateStatus := 0 } =
          (.ok { handle := 0, power_watched := false, prof_watched := false,
                 power_group_id := 0, prof_group_id := 0 },
           ["Warning: dcgmUpdateAllFields failed with code " ++
             toString (0 : Int)]))) :=
  ⟨rfl, new_start_failure_amended
    { libOk := true, initSymOk := true, initStatus := 0, startSymOk := true,
      startStatus := 1, startHandle := 0, updateSymOk := true,
      updateStatus := 0 } rfl rfl rfl rfl⟩

/-- C5 (counterexample): with every step before it succeeding and
dcgmStartEmbedded returning status 1, DcgmHandle::new returns the ApiError
variant, which is distinct from the InitializationError variant the claim
names. -/
theorem new_start_failure_cex :
    DcgmHandle.new
      { libOk := true, initSymOk := true, initStatus := 0, startSymOk := true,
        startStatus := 1, startHandle := 0, updateSymOk := true,
        updateStatus := 0 } =
      (.error (.ApiError 1 "dcgmStartEmbedded failed"), [])
    ∧ DcgmError.ApiError 1 "dcgmStartEmbedded failed" ≠
        DcgmError.InitializationError := by
  exact ⟨rfl, by simp⟩

/-- C10: with the daemon call succeeding (status 0) and a 32-entry buffer,
the slice of the buffer by the reported count is in bounds - the panic
branch is unreachable - exactly when 0 <= count <= 32; under that
precondition get_device_ids returns the first count identifiers in buffer
order, and a reported count of 0 yields the empty sequence, not an
error. -/
theorem get_device_ids_bounds (gpu_ids : List Nat) (count : Int)
    (hlen : gpu_ids.length = 32)
    (hlo : -(2 : Int) ^ 31 ≤ count) (hhi : count < (2 : Int) ^ 31) :
    ((get_device_ids 0 gpu_ids count).isSome ↔ 0 ≤ count ∧ count ≤ 32)
    ∧ (0 ≤ count → count ≤ 32 →
        get_device_ids 0 gpu_ids count =
          some (.ok (gpu_ids.take count.toNat)))
    ∧ get_device_ids 0 gpu_ids 0 = some (.ok []) := by
  have hpow : (2 : Int) ^ 31 = 2147483648 := by norm_num
  have hpow64 : (2 : Int) ^ 64 = 18446744073709551616 := by norm_num
  rw [hpow] at hlo hhi
  refine ⟨?_, ?_, ?_⟩
  · constructor
    · intro h
      by_cases hb : intCastU64 count ≤ gpu_ids.length
      · rw [hlen] at hb
        unfold intCastU64 at hb
        rw [hpow64] at hb
        omega
      · simp [get_device_ids, hb] at h
    · rintro ⟨hz, h32⟩
      have hb : intCastU64 count ≤ gpu_ids.length := by
        rw [hlen]
        unfold intCastU64
        rw [hpow64]
        omega
      simp [get_device_ids, hb]
  · intro hz h32
    have hb : intCastU64 count ≤ gpu_ids.length := by
      rw [hlen]
      unfold intCastU64
      rw [hpow64]
      omega
    have hcast : intCastU64 count = count.toNat := by
      unfold intCastU64
      rw [hpow64]
      omega
    simp [get_device_ids, hb, hcast]
    omega
  · simp [get_device_ids, intCastU64]

/-- C10 (witness): the bounds characterisation instantiated at a 32-entry
zero buffer with a reported count of 2. -/
theorem get_device_ids_bounds_witness :
    (List.replicate 32 (0 : Nat)).length = 32
    ∧ -(2 : Int) ^ 31 ≤ 2 ∧ (2 : Int) < (2 : Int) ^ 31
    ∧ (((get_device_ids 0 (List.replicate 32 (0 : Nat)) 2).isSome ↔
          (0 : Int) ≤ 2 ∧ (2 : Int) ≤ 32)
      ∧ ((0 : Int) ≤ 2 → (2 : Int) ≤ 32 →
          get_device_ids 0 (List.replicate 32 (0 : Nat)) 2 =
            some (.ok ((List.replicate 32 (0 : Nat)).take (2 : Int).toNat)))
      ∧ get_device_ids 0 (List.replicate 32 (0 : Nat)) 0 = some (.ok [])) :=
  ⟨by simp, by norm_num, by norm_num,
    get_device_ids_bounds (List.replicate 32 0) 2 (by simp) (by norm_num)
      (by norm_num)⟩

/-- The timestamp fold never goes below its initial value. -/
theorem latest_fold_init_le (batch : List FieldValue) (a : Int) :
    a ≤ batch.foldl
      (fun latest fv => if fv.timestamp > latest then fv.timestamp else latest) a := by
  induction batch generalizing a with
  | nil => simp
  | cons fv tl ih =>
    rw [List.foldl_cons]
    refine le_trans ?_ (ih _)
    split <;> omega

/-- Every record timestamp is bounded by the timestamp fold. -/
theorem latest_fold_mem_le (batch : List FieldValue) (a : Int) :
    ∀ fv ∈ batch, fv.timestamp ≤ batch.foldl
      (fun latest fv => if fv.timestamp > latest then fv.timestamp else latest) a := by
  induction batch generalizing a with
  | nil => simp
  | cons hd tl ih =>
    intro fv hfv
    rw [List.foldl_cons]
    rcases List.mem_cons.mp hfv with hfv | hfv
    · subst hfv
      refine le_trans ?_ (latest_fold_init_le tl _)
      split <;> omega
    · exact ih _ fv hfv

/-- The timestamp fold result is the initial value or some record
timestamp. -/
theorem latest_fold_attained (batch : List FieldValue) (a : Int) :
    batch.foldl
      (fun latest fv => if fv.timestamp > latest then fv.timestamp else latest) a = a
    ∨ ∃ fv ∈ batch, batch.foldl
      (fun latest fv => if fv.timestamp > latest then fv.timestamp else latest) a
        = fv.timestamp := by
  induction batch generalizing a with
  | nil => exact Or.inl rfl
  | cons hd tl ih =>
    rw [List.foldl_cons]
    rcases ih (if hd.timestamp > a then hd.timestamp else a) with h | ⟨fv, hfv, h⟩
    · rw [h]
      split
      · exact Or.inr ⟨hd, List.mem_cons_self hd tl, rfl⟩
      · exact Or.inl rfl
    · exact Or.inr ⟨fv, List.mem_cons_of_mem hd hfv, h⟩

/-- decode_throttle_reasons never changes the snapshot timestamp. -/
theorem decode_preserves_timestamp (m : GpuMetrics) :
    m.decode_throttle_reasons.timestamp = m.timestamp := by
  unfold GpuMetrics.decode_throttle_reasons
  cases h : m.clock_throttle_reasons <;> simp

/-- C6 (amended): for a nonempty batch whose record timestamps are all
nonnegative (timestamps are microseconds since the epoch), the snapshot
returned by get_basic_metrics carries as its timestamp the maximum of the
per-record timestamps: it bounds every record timestamp and is attained by
one of them.  (The accumulator starts at 0, so a batch of strictly negative
timestamps would clamp to 0, hence the nonnegativity hypothesis.) -/
theorem snapshot_timestamp_is_batch_max (d : Nat) (batch : List FieldValue)
    (hne : batch ≠ []) (hpos : ∀ fv ∈ batch, 0 ≤ fv.timestamp) :
    ∃ m, get_basic_metrics d batch = .ok m
      ∧ m.timestamp = latestTimestamp batch
      ∧ (∀ fv ∈ batch, fv.timestamp ≤ m.timestamp)
      ∧ ∃ fv ∈ batch, m.timestamp = fv.timestamp := by
  have hempty : batch.isEmpty = false := by
    cases batch with
    | nil => exact absurd rfl hne
    | cons hd tl => rfl
  refine ⟨GpuMetrics.decode_throttle_reasons
      { batch.foldl processFieldValue (GpuMetrics.new d) with
        timestamp := latestTimestamp batch }, ?_, ?_, ?_, ?_⟩
  · simp [get_basic_metrics, hempty]
  · exact decode_preserves_timestamp _
  · intro fv hfv
    rw [decode_preserves_timestamp]
    exact latest_fold_mem_le batch 0 fv hfv
  · rw [decode_preserves_timestamp]
    show ∃ fv ∈ batch, latestTimestamp batch = fv.timestamp
    rcases latest_fold_attained batch 0 with h | h
    · cases batch with
      | nil => exact absurd rfl hne
      | cons hd tl =>
        refine ⟨hd, List.mem_cons_self hd tl, ?_⟩
        have h1 := latest_fold_mem_le (hd :: tl) 0 hd
          (List.mem_cons_self hd tl)
        have h2 := hpos hd (List.mem_cons_self hd tl)
        unfold latestTimestamp
        rw [h] at h1 ⊢
        omega
    · exact h

/-- C6 (witness): the amended timestamp law instantiated at the singleton
batch holding a record with timestamp 7. -/
theorem snapshot_timestamp_is_batch_max_witness :
    ([unknownRecord] ≠ ([] : List FieldValue))
    ∧ (∀ fv ∈ [unknownRecord], 0 ≤ fv.timestamp)
    ∧ ∃ m, get_basic_metrics 0 [unknownRecord] = .ok m
      ∧ m.timestamp = latestTimestamp [unknownRecord]
      ∧ (∀ fv ∈ [unknownRecord], fv.timestamp ≤ m.timestamp)
      ∧ ∃ fv ∈ [unknownRecord], m.timestamp = fv.timestamp :=
  ⟨by simp, by decide,
    snapshot_timestamp_is_batch_max 0 [unknownRecord] (by simp) (by decide)⟩

/-- C6 (counterexample): a singleton batch whose record carries timestamp
-1 yields a snapshot with timestamp 0, while the maximum of the per-record
timestamps of that batch is -1, so the snapshot timestamp is not the batch
maximum. -/
theorem snapshot_timestamp_cex :
    ((get_basic_metrics 0 [cexRecord]).toOption.map GpuMetrics.timestamp)
        = some 0
    ∧ cexRecord.timestamp = -1
    ∧ some (0 : Int) ≠ some (-1 : Int) := by
  refine ⟨?_, rfl, by simp⟩
  rfl

/-- A record whose field id is not in the known mapping falls through to
the wildcard arm and leaves the snapshot unchanged. -/
theorem processFieldValue_unknown (m : GpuMetrics) (fv : FieldValue)
    (h : fv.field_id ∉ knownFieldIds) : processFieldValue m fv = m := by
  simp only [knownFieldIds, List.mem_cons, List.not_mem_nil, or_false,
    not_or] at h
  obtain ⟨h1, h2, h3, h4, h5, h6, h7, h8, h9, h10, h11, h12, h13, h14⟩ := h
  simp [processFieldValue, h1, h2, h3, h4, h5, h6, h7, h8, h9, h10, h11,
    h12, h13, h14]

/-- Folding a batch of records with unknown field ids over a snapshot is
the identity. -/
theorem foldl_unknown (batch : List FieldValue) (m : GpuMetrics)
    (h : ∀ fv ∈ batch, fv.field_id ∉ knownFieldIds) :
    batch.foldl processFieldValue m = m := by
  induction batch generalizing m with
  | nil => rfl
  | cons hd tl ih =>
    rw [List.foldl_cons,
      processFieldValue_unknown m hd (h hd (List.mem_cons_self hd tl))]
    exact ih m fun fv hfv => h fv (List.mem_cons_of_mem hd hfv)

/-- C7: assembling a snapshot from a nonempty batch in which every record
field id is absent from the known field-id mapping succeeds (no error is
raised by the fold) and yields a snapshot with every optional metric field
empty: unknown field ids are silently ignored. -/
theorem unknown_fields_yield_empty_snapshot (d : Nat)
    (batch : List FieldValue) (hne : batch ≠ [])
    (hunk : ∀ fv ∈ batch, fv.field_id ∉ knownFieldIds) :
    ∃ m, get_basic_metrics d batch = .ok m
      ∧ m.power_usage = none ∧ m.energy_consumption = none
      ∧ m.enforced_power_limit = none ∧ m.power_violation_time = none
      ∧ m.gpu_temp = none ∧ m.max_gpu_temp = none
      ∧ m.thermal_violation_time = none
      ∧ m.fb_total = none ∧ m.fb_free = none ∧ m.fb_used = none
      ∧ m.gpu_util = none ∧ m.sm_clock = none ∧ m.mem_clock = none
      ∧ m.clock_throttle_reasons = none ∧ m.throttle_reasons = none := by
  have hempty : batch.isEmpty = false := by
    cases batch with
    | nil => exact absurd rfl hne
    | cons hd tl => rfl
  have hfold := foldl_unknown batch (GpuMetrics.new d) hunk
  refine ⟨{ GpuMetrics.new d with timestamp := latestTimestamp batch },
    ?_, rfl, rfl, rfl, rfl, rfl, rfl, rfl, rfl, rfl, rfl, rfl, rfl, rfl,
    rfl, rfl⟩
  simp only [get_basic_metrics, hempty, Bool.false_eq_true, if_false, hfold]
  rfl

/-- C7 (witness): the empty-snapshot law instantiated at a singleton batch
holding a record with the unknown field id 9999. -/
theorem unknown_fields_yield_empty_snapshot_witness :
    ([unknownRecord] ≠ ([] : List FieldValue))
    ∧ (∀ fv ∈ [unknownRecord], fv.field_id ∉ knownFieldIds)
    ∧ ∃ m, get_basic_metrics 0 [unknownRecord] = .ok m
      ∧ m.power_usage = none ∧ m.energy_consumption = none
      ∧ m.enforced_power_limit = none ∧ m.power_violation_time = none
      ∧ m.gpu_temp = none ∧ m.max_gpu_temp = none
      ∧ m.thermal_violation_time = none
      ∧ m.fb_total = none ∧ m.fb_free = none ∧ m.fb_used = none
      ∧ m.gpu_util = none ∧ m.sm_clock = none ∧ m.mem_clock = none
      ∧ m.clock_throttle_reasons = none ∧ m.throttle_reasons = none :=
  ⟨by simp, by decide,
    unknown_fields_yield_empty_snapshot 0 [unknownRecord] (by simp)
      (by decide)⟩

end DcgmRs
